import Mathlib

/-!
A shallow embedding of `arxiv_dl/arxiv_dl.py` (the `main` orchestrator) and
`arxiv_dl/models.py` (the `PaperData` record) of the `arxiv-dl` repository.

The collaborator modules (`helpers.py`, `scrapers.py`, `logger.py`) are not
part of the provided source; following the specification they are treated as
an external environment of oracle functions (`Env`).  `main` is embedded as a
pure function from that environment and its arguments to an outcome, the list
of collaborator invocations it performed, and the log entries it emitted.
-/

namespace ArxivDl

/-- `models.py`: the `PaperData` pydantic record.  All scalar fields default
to `None` (here `none`), the two list fields default to `[]`. -/
structure PaperData where
  paper_id : Option String := none
  abs_url : Option String := none
  pdf_url : Option String := none
  src_website : Option String := none
  download_name : Option String := none
  title : Option String := none
  year : Option Int := none
  paper_venue : Option String := none
  authors : List String := []
  abstract : Option String := none
  comments : Option String := none
  official_code_urls : List String := []
  pwc_page_url : Option String := none
  bibtex : Option String := none
deriving DecidableEq, Repr

/-- Does `pat` occur as a contiguous block in the list? -/
def hasInfixAux (pat : List Char) : List Char → Bool
  | [] => pat.isEmpty
  | c :: t => pat.isPrefixOf (c :: t) || hasInfixAux pat t

/-- Python `pat in s`: substring containment, over the character lists. -/
def hasSubstr (s pat : String) : Bool :=
  hasInfixAux pat.data s.data

/-- Python `s.startswith(pat)`, over the character lists. -/
def strStarts (s pat : String) : Bool :=
  pat.data.isPrefixOf s.data

/-- Python `s.endswith(pat)`, over the character lists. -/
def strEnds (s pat : String) : Bool :=
  pat.data.isSuffixOf s.data

/-- Python `target.startswith(("http://", "https://", "www."))`. -/
def validStart (t : String) : Bool :=
  strStarts t "http://" || strStarts t "https://" || strStarts t "www."

/-- Python `target[0].isdigit()` (decimal digit), guarded by non-emptiness. -/
def firstIsDigit (t : String) : Bool :=
  match t.data with
  | [] => false
  | c :: _ => c.isDigit

/-- Python truthiness of an optional string (`None` and `""` are falsy):
used for `if not target` and `if paper_data.pdf_url`. -/
def truthyStr : Option String → Bool
  | none => false
  | some s => !(s == "")

/-- The five venues dispatched to a resolver, plus the raw-PDF branch. -/
inductive Venue where
  | arxiv
  | cvf
  | nips
  | openreview
  | ecva
  | rawPDF
deriving DecidableEq, Repr

/-- Result of the target-classification logic of `main`
(`arxiv_dl.py` lines 51-82): either a venue or one of the abort causes. -/
inductive Classified where
  | venue : Venue → Classified
  | emptyTarget : Classified
  | unrecognizedFormat : Classified
  | unknownTarget : Classified
deriving DecidableEq, Repr

/-- The classification logic of `main`, read off the guard at line 51, the
format filter at lines 55-62 and the `if/elif` chain at lines 65-82.
`none` stands for a missing or non-string target (both falsy in Python). -/
def classify : Option String → Classified
  | none => .emptyTarget
  | some t =>
    if t = "" then .emptyTarget
    else if !validStart t && !firstIsDigit t then .unrecognizedFormat
    else if firstIsDigit t || hasSubstr t "arxiv.org" then .venue .arxiv
    else if hasSubstr t "openaccess.thecvf.com" then .venue .cvf
    else if hasSubstr t "papers.nips.cc/paper" then .venue .nips
    else if hasSubstr t "openreview.net" then .venue .openreview
    else if hasSubstr t "ecva.net" then .venue .ecva
    else if strEnds t ".pdf" then .venue .rawPDF
    else .unknownTarget

/-- A collaborator invocation performed by `main`, recording the arguments
handed to the collaborator. -/
inductive Call where
  | getDownloadDest : Call
  | processArxiv : String → Call
  | processCvf : String → Call
  | processNips : String → Call
  | processOpenreview : String → Call
  | processEcva : String → Call
  | scrapeMetadata : PaperData → Call
  | downloadPdf : PaperData → String → Nat → Call
  | addToPaperList : PaperData → String → Call
  | createPaperNote : PaperData → String → Call
deriving DecidableEq, Repr

/-- A log entry emitted through `logger`. -/
inductive LogEntry where
  | error : String → LogEntry
  | warn : String → LogEntry
  | exception : String → LogEntry
  | debug : PaperData → LogEntry
deriving DecidableEq, Repr

/-- How a call of `main` terminates: a returned boolean, or an exception
that propagates uncaught to the caller. -/
inductive Outcome where
  | ret : Bool → Outcome
  | raise : String → Outcome
deriving DecidableEq, Repr

/-- The observable result of a run: its outcome, the collaborator calls it
made (in order), and the log entries it emitted (in order). -/
structure RunResult where
  outcome : Outcome
  calls : List Call
  logs : List LogEntry
deriving DecidableEq, Repr

/-- Modelled from the spec: the collaborator interfaces of §6 and §4.2 whose
implementations (`helpers.py`, `scrapers.py`) are missing from the provided
source.  `get_download_dest` is the configuration source (may fail);
`resolve_path`/`is_dir` stand for `Path(...).resolve()` and
`Path.is_dir()`; the five venue resolvers never fail on their accepted
inputs (§4.2 "Resolvers never fail on well-formed input"); the scraper,
downloader, index updater and note writer may raise (§6). -/
structure Env where
  get_download_dest : Except String String
  resolve_path : String → String
  is_dir : String → Bool
  process_arxiv_target : String → PaperData
  process_cvf_target : String → PaperData
  process_nips_target : String → PaperData
  process_openreview_target : String → PaperData
  process_ecva_target : String → PaperData
  scrape_metadata : PaperData → Except String PaperData
  download_pdf : PaperData → String → Nat → Except String Unit
  add_to_paper_list : PaperData → String → Except String Unit
  create_paper_note : PaperData → String → Except String Unit

/-- Result of the download-directory stage (`arxiv_dl.py` lines 38-48):
the resolved directory (or `none` on the caught failure), the calls and
the logs of the stage. -/
structure DirResult where
  dir : Option String
  calls : List Call
  logs : List LogEntry
deriving Repr

/-- Lines 38-48: with no explicit directory, ask the configuration source
(`get_download_dest`); with an explicit one, `resolve()` it and assert
`is_dir()`.  Any exception is caught, logged, and turns into an abort. -/
def resolveDirStage (env : Env) (download_dir : Option String) : DirResult :=
  match download_dir with
  | none =>
    match env.get_download_dest with
    | .ok d => ⟨some d, [.getDownloadDest], []⟩
    | .error e =>
      ⟨none, [.getDownloadDest],
        [.exception e, .error "[Abort] Environment Variable Error"]⟩
  | some d =>
    let r := env.resolve_path d
    if env.is_dir r then ⟨some r, [], []⟩
    else
      ⟨none, [],
        [.exception "AssertionError", .error "[Abort] Environment Variable Error"]⟩

/-- Lines 65-79: dispatch the classified target to its venue resolver.
The `rawPDF` branch's body is `...` (pass), so it binds no `paper_data`
and performs no call: `none`. -/
def resolveStage (env : Env) (t : String) : Venue → Option (PaperData × Call)
  | .arxiv => some (env.process_arxiv_target t, .processArxiv t)
  | .cvf => some (env.process_cvf_target t, .processCvf t)
  | .nips => some (env.process_nips_target t, .processNips t)
  | .openreview => some (env.process_openreview_target t, .processOpenreview t)
  | .ecva => some (env.process_ecva_target t, .processEcva t)
  | .rawPDF => none

/-- Lines 106-121: append to the paper list, then (unless `pdf_only`)
create the note.  Each failure is caught, logged, and returns `False`. -/
def indexNoteStage (env : Env) (pd : PaperData) (dir : String)
    (pdf_only : Bool) : RunResult :=
  match env.add_to_paper_list pd dir with
  | .error e =>
    ⟨.ret false, [.addToPaperList pd dir],
      [.exception e, .warn "[Warn] Error while updating paper list"]⟩
  | .ok _ =>
    if pdf_only then ⟨.ret true, [.addToPaperList pd dir], []⟩
    else
      match env.create_paper_note pd dir with
      | .error e =>
        ⟨.ret false, [.addToPaperList pd dir, .createPaperNote pd dir],
          [.exception e, .warn "[Warn] Error while creating note"]⟩
      | .ok _ =>
        ⟨.ret true, [.addToPaperList pd dir, .createPaperNote pd dir], []⟩

/-- Lines 87-121: the pipeline after a successful scrape: the optional
verbose debug dump, the guarded download (lines 93-104), then the index
and note stages. -/
def postScrape (env : Env) (pd : PaperData) (dir : String) (verbose : Bool)
    (n_threads : Nat) (pdf_only : Bool) : RunResult :=
  let dbg : List LogEntry := if verbose then [.debug pd] else []
  if truthyStr pd.pdf_url then
    match env.download_pdf pd dir n_threads with
    | .error e =>
      ⟨.ret false, [.downloadPdf pd dir n_threads],
        dbg ++ [.exception e, .error "[Abort] Error while downloading paper"]⟩
    | .ok _ =>
      let r := indexNoteStage env pd dir pdf_only
      ⟨r.outcome, .downloadPdf pd dir n_threads :: r.calls, dbg ++ r.logs⟩
  else
    let r := indexNoteStage env pd dir pdf_only
    ⟨r.outcome, r.calls, dbg ++ [.warn "[Warn] No PDF URL found"] ++ r.logs⟩

/-- Lines 50-121 for a string target, once the directory is resolved:
validate and classify the target, resolve it, scrape (line 85, not wrapped
in `try`: a scraper exception propagates), then run `postScrape`.  In the
`rawPDF` branch `paper_data` was never assigned, so line 85 raises
`UnboundLocalError`, uncaught. -/
def runTarget (env : Env) (t : String) (dir : String) (verbose : Bool)
    (n_threads : Nat) (pdf_only : Bool) : RunResult :=
  match classify (some t) with
  | .emptyTarget =>
    ⟨.ret false, [], [.error "[Abort] Target is not specified correctly"]⟩
  | .unrecognizedFormat =>
    ⟨.ret false, [],
      [.error ("[Abort] Target should be a URL or an ArXiv ID. Unknown target: " ++ t)]⟩
  | .unknownTarget =>
    ⟨.ret false, [], [.error ("[Abort] Unknown target: " ++ t)]⟩
  | .venue v =>
    match resolveStage env t v with
    | none => ⟨.raise "UnboundLocalError", [], []⟩
    | some (pd, c) =>
      match env.scrape_metadata pd with
      | .error e => ⟨.raise e, [c, .scrapeMetadata pd], []⟩
      | .ok pd2 =>
        let r := postScrape env pd2 dir verbose n_threads pdf_only
        ⟨r.outcome, c :: .scrapeMetadata pd :: r.calls, r.logs⟩

/-- `main` of `arxiv_dl.py` (lines 23-123): resolve the download directory,
then validate, classify and process the target.  `target = none` models a
missing or non-string target. -/
def main (env : Env) (target : Option String) (verbose : Bool)
    (download_dir : Option String) (n_threads : Nat) (pdf_only : Bool) :
    RunResult :=
  let dr := resolveDirStage env download_dir
  match dr.dir with
  | none => ⟨.ret false, dr.calls, dr.logs⟩
  | some dir =>
    match target with
    | none =>
      ⟨.ret false, dr.calls,
        dr.logs ++ [.error "[Abort] Target is not specified correctly"]⟩
    | some t =>
      let r := runTarget env t dir verbose n_threads pdf_only
      ⟨r.outcome, dr.calls ++ r.calls, dr.logs ++ r.logs⟩

/-- Is a call an invocation of one of the five venue resolvers? -/
def isResolverCall : Call → Bool
  | .processArxiv _ => true
  | .processCvf _ => true
  | .processNips _ => true
  | .processOpenreview _ => true
  | .processEcva _ => true
  | _ => false

/-- Is a call an invocation of the PDF downloader? -/
def isDownloadCall : Call → Bool
  | .downloadPdf _ _ _ => true
  | _ => false

/-- Is a call an invocation of the note writer? -/
def isNoteCall : Call → Bool
  | .createPaperNote _ _ => true
  | _ => false

/-- A sample skeleton record, as an arXiv resolver would build it. -/
def pdDemo : PaperData :=
  { paper_id := some "1506.01497"
    abs_url := some "https://arxiv.org/abs/1506.01497"
    pdf_url := some "https://arxiv.org/pdf/1506.01497"
    src_website := some "arxiv" }

/-- A benign concrete environment where every collaborator succeeds. -/
def envDemo : Env where
  get_download_dest := .ok "/home/user/papers"
  resolve_path := fun s => s
  is_dir := fun _ => true
  process_arxiv_target := fun _ => pdDemo
  process_cvf_target := fun _ => pdDemo
  process_nips_target := fun _ => pdDemo
  process_openreview_target := fun _ => pdDemo
  process_ecva_target := fun _ => pdDemo
  scrape_metadata := fun pd => .ok pd
  download_pdf := fun _ _ _ => .ok ()
  add_to_paper_list := fun _ _ => .ok ()
  create_paper_note := fun _ _ => .ok ()

/-- `envDemo` with a scraper that raises. -/
def envScrapeFail : Env :=
  { envDemo with scrape_metadata := fun _ => .error "ConnectionError" }

/-- `envDemo` with an index updater that raises. -/
def envIndexFail : Env :=
  { envDemo with add_to_paper_list := fun _ _ => .error "OSError" }

/-- `envDemo` with a note writer that raises. -/
def envNoteFail : Env :=
  { envDemo with create_paper_note := fun _ _ => .error "OSError" }

/-- `envDemo` with a PDF downloader that raises. -/
def envDownloadFail : Env :=
  { envDemo with download_pdf := fun _ _ _ => .error "HTTPError" }

/-- `envDemo` where no path is a directory. -/
def envNoDir : Env :=
  { envDemo with is_dir := fun _ => false }

/-- `pdDemo` with its `pdf_url` cleared. -/
def pdNoUrl : PaperData :=
  { pdDemo with pdf_url := none }

/-- `envDemo` with a scraper that clears `pdf_url`. -/
def envNoUrl : Env :=
  { envDemo with scrape_metadata := fun pd => .ok { pd with pdf_url := none } }

/-! ### Structural lemmas about the stages -/

theorem dirStage_calls_shape (env : Env) (dd : Option String) :
    (resolveDirStage env dd).calls = [] ∨
    (resolveDirStage env dd).calls = [Call.getDownloadDest] := by
  cases dd with
  | none =>
    cases h : env.get_download_dest <;> simp [resolveDirStage, h]
  | some d =>
    cases h : env.is_dir (env.resolve_path d) <;> simp [resolveDirStage, h]

theorem dirStage_filter_resolver (env : Env) (dd : Option String) :
    ((resolveDirStage env dd).calls).filter isResolverCall = [] := by
  rcases dirStage_calls_shape env dd with h | h <;> simp [h, isResolverCall]

theorem dirStage_filter_download (env : Env) (dd : Option String) :
    ((resolveDirStage env dd).calls).filter isDownloadCall = [] := by
  rcases dirStage_calls_shape env dd with h | h <;> simp [h, isDownloadCall]

theorem dirStage_filter_note (env : Env) (dd : Option String) :
    ((resolveDirStage env dd).calls).filter isNoteCall = [] := by
  rcases dirStage_calls_shape env dd with h | h <;> simp [h, isNoteCall]

theorem indexNote_calls_shape (env : Env) (pd : PaperData) (dir : String)
    (p : Bool) :
    (indexNoteStage env pd dir p).calls = [Call.addToPaperList pd dir] ∨
    (indexNoteStage env pd dir p).calls
      = [Call.addToPaperList pd dir, Call.createPaperNote pd dir] := by
  unfold indexNoteStage
  cases env.add_to_paper_list pd dir with
  | error e => simp
  | ok u =>
    cases p with
    | true => simp
    | false => cases env.create_paper_note pd dir <;> simp

theorem indexNote_ret (env : Env) (pd : PaperData) (dir : String) (p : Bool) :
    ∃ b, (indexNoteStage env pd dir p).outcome = .ret b := by
  unfold indexNoteStage
  cases env.add_to_paper_list pd dir with
  | error e => exact ⟨false, rfl⟩
  | ok u =>
    cases p with
    | true => exact ⟨true, rfl⟩
    | false =>
      cases env.create_paper_note pd dir with
      | error e => exact ⟨false, rfl⟩
      | ok u2 => exact ⟨true, rfl⟩

theorem indexNote_filter_resolver (env : Env) (pd : PaperData) (dir : String)
    (p : Bool) :
    ((indexNoteStage env pd dir p).calls).filter isResolverCall = [] := by
  rcases indexNote_calls_shape env pd dir p with h | h <;>
    simp [h, isResolverCall]

theorem indexNote_filter_download (env : Env) (pd : PaperData) (dir : String)
    (p : Bool) :
    ((indexNoteStage env pd dir p).calls).filter isDownloadCall = [] := by
  rcases indexNote_calls_shape env pd dir p with h | h <;>
    simp [h, isDownloadCall]

theorem indexNote_mem_add (env : Env) (pd : PaperData) (dir : String)
    (p : Bool) :
    Call.addToPaperList pd dir ∈ (indexNoteStage env pd dir p).calls := by
  rcases indexNote_calls_shape env pd dir p with h | h <;> simp [h]

theorem postScrape_calls_shape (env : Env) (pd : PaperData) (dir : String)
    (v : Bool) (n : Nat) (p : Bool) :
    (postScrape env pd dir v n p).calls = (indexNoteStage env pd dir p).calls ∨
    (postScrape env pd dir v n p).calls
      = Call.downloadPdf pd dir n :: (indexNoteStage env pd dir p).calls ∨
    (postScrape env pd dir v n p).calls = [Call.downloadPdf pd dir n] := by
  unfold postScrape
  cases h : truthyStr pd.pdf_url with
  | false => simp
  | true =>
    cases hd : env.download_pdf pd dir n with
    | error e => simp
    | ok u => simp

theorem postScrape_ret (env : Env) (pd : PaperData) (dir : String)
    (v : Bool) (n : Nat) (p : Bool) :
    ∃ b, (postScrape env pd dir v n p).outcome = .ret b := by
  unfold postScrape
  cases h : truthyStr pd.pdf_url with
  | false =>
    rcases indexNote_ret env pd dir p with ⟨b, hb⟩
    exact ⟨b, by simp [hb]⟩
  | true =>
    cases hd : env.download_pdf pd dir n with
    | error e => exact ⟨false, rfl⟩
    | ok u =>
      rcases indexNote_ret env pd dir p with ⟨b, hb⟩
      exact ⟨b, by simp [hb]⟩

theorem postScrape_filter_resolver (env : Env) (pd : PaperData) (dir : String)
    (v : Bool) (n : Nat) (p : Bool) :
    ((postScrape env pd dir v n p).calls).filter isResolverCall = [] := by
  rcases postScrape_calls_shape env pd dir v n p with h | h | h <;>
    simp [h, isResolverCall, indexNote_filter_resolver]

theorem resolveStage_call_resolver (env : Env) (t : String) (vn : Venue)
    (pd : PaperData) (c : Call) (h : resolveStage env t vn = some (pd, c)) :
    isResolverCall c = true ∧ isDownloadCall c = false ∧ isNoteCall c = false := by
  cases vn <;> simp [resolveStage] at h <;>
    rcases h with ⟨h1, h2⟩ <;> subst h2 <;>
    simp [isResolverCall, isDownloadCall, isNoteCall]

/-! ### Theorems for the claims -/

/-- C1: on every target whose classification reaches the RawPDF branch
(suffix `.pdf`, matching no earlier venue rule), and for every environment
in which the download directory resolves, `main` does not return `false` or
signal `NotImplemented`: it raises an uncaught `UnboundLocalError`, because
the branch body is `...` and `paper_data` is never bound before line 85
uses it.  This contradicts the claim's required behavior. -/
theorem rawPDF_branch_raises (env : Env) (t : String) (dd : Option String)
    (dir : String) (v : Bool) (n : Nat) (p : Bool)
    (hdir : (resolveDirStage env dd).dir = some dir)
    (hc : classify (some t) = .venue .rawPDF) :
    (main env (some t) v dd n p).outcome = .raise "UnboundLocalError" := by
  simp [main, hdir, runTarget, hc, resolveStage]

/-- Witness for `rawPDF_branch_raises`: the concrete target
`"www.foo.pdf"` reaches the RawPDF branch and the run raises. -/
theorem rawPDF_branch_raises_witness :
    (main envDemo (some "www.foo.pdf") false (some "/papers") 5 false).outcome
      = .raise "UnboundLocalError" :=
  rawPDF_branch_raises envDemo "www.foo.pdf" (some "/papers") "/papers"
    false 5 false (by decide) (by decide)

/-- C2 counterexample: the string `"arxiv.org"` contains the substring
`arxiv.org` but its classification is `UnrecognizedFormat`, not ArXiv: the
format filter (lines 55-62) rejects it before venue detection, the run
aborts with `False` and no resolver is invoked. -/
theorem arxiv_substring_counterexample :
    classify (some "arxiv.org") ≠ .venue .arxiv ∧
    classify (some "arxiv.org") = .unrecognizedFormat ∧
    (main envDemo (some "arxiv.org") false (some "/papers") 5 false).outcome
      = .ret false ∧
    ((main envDemo (some "arxiv.org") false (some "/papers") 5 false).calls).filter
      isResolverCall = [] := by
  decide

/-- C2 amended: every string that contains `arxiv.org` AND passes the
format filter (starts with `http://`, `https://` or `www.`, or has a digit
first character) classifies as ArXiv, and in every run whose directory
stage succeeds the arXiv resolver is the only resolver invoked. -/
theorem arxiv_substring_resolves_arxiv (t : String)
    (hfmt : validStart t = true ∨ firstIsDigit t = true)
    (hsub : hasSubstr t "arxiv.org" = true) :
    classify (some t) = .venue .arxiv ∧
    ∀ (env : Env) (dd : Option String) (v : Bool) (n : Nat) (p : Bool)
      (dir : String), (resolveDirStage env dd).dir = some dir →
      ((main env (some t) v dd n p).calls).filter isResolverCall
        = [Call.processArxiv t] := by
  have ht : t ≠ "" := by
    intro he
    subst he
    exact absurd hsub (by decide)
  have hcls : classify (some t) = .venue .arxiv := by
    rcases hfmt with h | h <;>
      simp [classify, ht, h, hsub]
  refine ⟨hcls, ?_⟩
  intro env dd v n p dir hdir
  cases hscr : env.scrape_metadata (env.process_arxiv_target t) with
  | error e =>
    simp [main, hdir, runTarget, hcls, resolveStage, hscr,
      dirStage_filter_resolver, isResolverCall]
  | ok pd2 =>
    simp [main, hdir, runTarget, hcls, resolveStage, hscr,
      dirStage_filter_resolver, postScrape_filter_resolver, isResolverCall]

/-- Witness for `arxiv_substring_resolves_arxiv` at
`"https://arxiv.org/abs/1506.01497"`. -/
theorem arxiv_substring_resolves_arxiv_witness :
    classify (some "https://arxiv.org/abs/1506.01497") = .venue .arxiv ∧
    ((main envDemo (some "https://arxiv.org/abs/1506.01497") false
        (some "/papers") 5 false).calls).filter isResolverCall
      = [Call.processArxiv "https://arxiv.org/abs/1506.01497"] :=
  ⟨(arxiv_substring_resolves_arxiv "https://arxiv.org/abs/1506.01497"
      (Or.inl (by decide)) (by decide)).1,
   (arxiv_substring_resolves_arxiv "https://arxiv.org/abs/1506.01497"
      (Or.inl (by decide)) (by decide)).2 envDemo (some "/papers") false 5
      false "/papers" (by decide)⟩

/-- C3: every non-empty target that does not start with `http://`,
`https://` or `www.` and whose first character is not a decimal digit
classifies as `UnrecognizedFormat`, and `main` returns `false` without
invoking any venue resolver, in every environment. -/
theorem unrecognized_format_aborts (t : String) (h0 : t ≠ "")
    (h1 : validStart t = false) (h2 : firstIsDigit t = false) :
    classify (some t) = .unrecognizedFormat ∧
    ∀ (env : Env) (dd : Option String) (v : Bool) (n : Nat) (p : Bool),
      (main env (some t) v dd n p).outcome = .ret false ∧
      ((main env (some t) v dd n p).calls).filter isResolverCall = [] := by
  have hcls : classify (some t) = .unrecognizedFormat := by
    simp [classify, h0, h1, h2]
  refine ⟨hcls, ?_⟩
  intro env dd v n p
  cases hdir : (resolveDirStage env dd).dir with
  | none => simp [main, hdir, dirStage_filter_resolver]
  | some dir => simp [main, hdir, runTarget, hcls, dirStage_filter_resolver]

/-- Witness for `unrecognized_format_aborts` at the concrete target
`"foo.pdf"` (which, notably, never reaches the RawPDF branch). -/
theorem unrecognized_format_aborts_witness :
    (main envDemo (some "foo.pdf") false none 5 false).outcome = .ret false ∧
    ((main envDemo (some "foo.pdf") false none 5 false).calls).filter
      isResolverCall = [] :=
  (unrecognized_format_aborts "foo.pdf" (by decide) (by decide)
    (by decide)).2 envDemo none false 5 false

/-- C9: whenever the explicit destination directory fails the `is_dir`
check, `main` returns `false` having performed no collaborator call at all
(in particular no network call): the check is the first stage. -/
theorem missing_dir_aborts_before_network (env : Env) (d : String)
    (target : Option String) (v : Bool) (n : Nat) (p : Bool)
    (h : env.is_dir (env.resolve_path d) = false) :
    (main env target v (some d) n p).outcome = .ret false ∧
    (main env target v (some d) n p).calls = [] := by
  simp [main, resolveDirStage, h]

/-- Witness for `missing_dir_aborts_before_network` in the concrete
environment where no path is a directory. -/
theorem missing_dir_aborts_before_network_witness :
    (main envNoDir (some "1506.01497") false (some "/papers") 5 false).outcome
      = .ret false ∧
    (main envNoDir (some "1506.01497") false (some "/papers") 5 false).calls
      = [] :=
  missing_dir_aborts_before_network envNoDir "/papers" (some "1506.01497")
    false 5 false rfl

/-- C4: in every run that reaches the download stage with an unset (or
empty) `pdf_url`, the PDF downloader is never invoked, the stage completes
with the `No PDF URL found` warning, and the pipeline proceeds to the
index-update stage (the index updater is invoked). -/
theorem no_pdf_url_warns_and_proceeds (env : Env) (t : String)
    (dd : Option String) (dir : String) (v : Bool) (n : Nat) (p : Bool)
    (vn : Venue) (pd pd2 : PaperData) (c : Call)
    (hdir : (resolveDirStage env dd).dir = some dir)
    (hcls : classify (some t) = .venue vn)
    (hres : resolveStage env t vn = some (pd, c))
    (hscr : env.scrape_metadata pd = .ok pd2)
    (hurl : truthyStr pd2.pdf_url = false) :
    ((main env (some t) v dd n p).calls).filter isDownloadCall = [] ∧
    LogEntry.warn "[Warn] No PDF URL found"
      ∈ (main env (some t) v dd n p).logs ∧
    Call.addToPaperList pd2 dir ∈ (main env (some t) v dd n p).calls := by
  cases vn <;> simp [resolveStage] at hres <;>
    obtain ⟨h1, h2⟩ := hres <;> subst h2 <;> subst h1 <;>
    refine ⟨?_, ?_, ?_⟩ <;>
    simp [main, hdir, runTarget, hcls, resolveStage, hscr, postScrape, hurl,
      dirStage_filter_download, indexNote_filter_download,
      indexNote_mem_add, isDownloadCall]

/-- Witness for `no_pdf_url_warns_and_proceeds`: a scraper that clears
`pdf_url` leads to a warned no-op download and an index-update call. -/
theorem no_pdf_url_warns_and_proceeds_witness :
    ((main envNoUrl (some "1506.01497") false (some "/papers") 5
        false).calls).filter isDownloadCall = [] ∧
    LogEntry.warn "[Warn] No PDF URL found"
      ∈ (main envNoUrl (some "1506.01497") false (some "/papers") 5
          false).logs ∧
    Call.addToPaperList pdNoUrl "/papers"
      ∈ (main envNoUrl (some "1506.01497") false (some "/papers") 5
          false).calls :=
  no_pdf_url_warns_and_proceeds envNoUrl "1506.01497" (some "/papers")
    "/papers" false 5 false .arxiv pdDemo pdNoUrl
    (.processArxiv "1506.01497") (by decide) (by decide) rfl rfl (by decide)

/-- C5: in every run that reaches the index-update stage and whose
index-append collaborator fails, `main` logs the failure and returns
`false` without raising, and the note writer is never invoked. -/
theorem index_fail_skips_note (env : Env) (t : String) (dd : Option String)
    (dir : String) (v : Bool) (n : Nat) (p : Bool) (vn : Venue)
    (pd pd2 : PaperData) (c : Call) (e : String)
    (hdir : (resolveDirStage env dd).dir = some dir)
    (hcls : classify (some t) = .venue vn)
    (hres : resolveStage env t vn = some (pd, c))
    (hscr : env.scrape_metadata pd = .ok pd2)
    (hdl : truthyStr pd2.pdf_url = false ∨
      env.download_pdf pd2 dir n = .ok ())
    (hidx : env.add_to_paper_list pd2 dir = .error e) :
    (main env (some t) v dd n p).outcome = .ret false ∧
    ((main env (some t) v dd n p).calls).filter isNoteCall = [] ∧
    LogEntry.exception e ∈ (main env (some t) v dd n p).logs ∧
    LogEntry.warn "[Warn] Error while updating paper list"
      ∈ (main env (some t) v dd n p).logs := by
  rcases hdl with hdl | hdl
  · cases vn <;> simp [resolveStage] at hres <;>
      obtain ⟨h1, h2⟩ := hres <;> subst h2 <;> subst h1 <;>
      refine ⟨?_, ?_, ?_, ?_⟩ <;>
      simp [main, hdir, runTarget, hcls, resolveStage, hscr, postScrape,
        hdl, indexNoteStage, hidx, dirStage_filter_note, isNoteCall]
  · cases vn <;> simp [resolveStage] at hres <;>
      obtain ⟨h1, h2⟩ := hres <;> subst h2 <;> subst h1 <;>
      cases hurl2 : truthyStr pd2.pdf_url <;>
      refine ⟨?_, ?_, ?_, ?_⟩ <;>
      simp [main, hdir, runTarget, hcls, resolveStage, hscr, postScrape,
        hurl2, hdl, indexNoteStage, hidx, dirStage_filter_note, isNoteCall]

/-- Witness for `index_fail_skips_note` with a failing index updater. -/
theorem index_fail_skips_note_witness :
    (main envIndexFail (some "1506.01497") false (some "/papers") 5
        false).outcome = .ret false ∧
    ((main envIndexFail (some "1506.01497") false (some "/papers") 5
        false).calls).filter isNoteCall = [] ∧
    LogEntry.exception "OSError"
      ∈ (main envIndexFail (some "1506.01497") false (some "/papers") 5
          false).logs ∧
    LogEntry.warn "[Warn] Error while updating paper list"
      ∈ (main envIndexFail (some "1506.01497") false (some "/papers") 5
          false).logs :=
  index_fail_skips_note envIndexFail "1506.01497" (some "/papers")
    "/papers" false 5 false .arxiv pdDemo pdDemo
    (.processArxiv "1506.01497") "OSError" (by decide) (by decide) rfl rfl
    (Or.inr rfl) rfl

/-- C8 counterexample: on the empty target with no explicit directory,
`main` returns `false` but the configuration source (`get_download_dest`)
is invoked: the directory stage runs before target validation, so "no
collaborator is invoked" fails. -/
theorem empty_target_counterexample :
    (main envDemo (some "") false none 5 false).outcome = .ret false ∧
    (main envDemo (some "") false none 5 false).calls
      = [Call.getDownloadDest] := by
  decide

/-- C8 amended: on a missing, non-string or empty target, `main` returns
`false`, and no collaborator other than the configuration source (consulted
by the preceding directory stage when no explicit directory is given) is
ever invoked. -/
theorem empty_target_aborts (env : Env) (target : Option String) (v : Bool)
    (dd : Option String) (n : Nat) (p : Bool)
    (h : target = none ∨ target = some "") :
    (main env target v dd n p).outcome = .ret false ∧
    ∀ c ∈ (main env target v dd n p).calls, c = Call.getDownloadDest := by
  have hcal : ∀ c ∈ (resolveDirStage env dd).calls,
      c = Call.getDownloadDest := by
    rcases dirStage_calls_shape env dd with hs | hs <;> simp [hs]
  rcases h with h | h <;> subst h <;>
    cases hdir : (resolveDirStage env dd).dir with
  | none => exact ⟨by simp [main, hdir], by simpa [main, hdir] using hcal⟩
  | some dir =>
    exact ⟨by simp [main, hdir, runTarget, classify],
      by simpa [main, hdir, runTarget, classify] using hcal⟩

/-- Witness for `empty_target_aborts` at the empty target. -/
theorem empty_target_aborts_witness :
    (main envDemo (some "") false none 5 false).outcome = .ret false :=
  (empty_target_aborts envDemo (some "") false none 5 false (Or.inr rfl)).1

theorem resolveStage_some (env : Env) (t : String) (vn : Venue)
    (h : vn ≠ .rawPDF) : ∃ pd c, resolveStage env t vn = some (pd, c) := by
  cases vn with
  | rawPDF => exact absurd rfl h
  | arxiv => exact ⟨_, _, rfl⟩
  | cvf => exact ⟨_, _, rfl⟩
  | nips => exact ⟨_, _, rfl⟩
  | openreview => exact ⟨_, _, rfl⟩
  | ecva => exact ⟨_, _, rfl⟩

/-- C6 counterexample: a metadata-scrape failure is an anticipated failure
category, yet `main` raises it to the caller instead of returning a
boolean. -/
theorem never_raises_counterexample :
    (main envScrapeFail (some "1506.01497") false (some "/papers") 5
        false).outcome = .raise "ConnectionError" ∧
    (main envScrapeFail (some "1506.01497") false (some "/papers") 5
        false).outcome ≠ .ret true ∧
    (main envScrapeFail (some "1506.01497") false (some "/papers") 5
        false).outcome ≠ .ret false := by
  decide

/-- C6 amended: for input, environment, download, index and note failures
`main` indeed returns a boolean without raising; the guarantee excludes
metadata-scrape failures and targets reaching the unimplemented RawPDF
branch, both of which raise. -/
theorem no_raise_outside_scrape_and_rawpdf (env : Env)
    (target : Option String) (v : Bool) (dd : Option String) (n : Nat)
    (p : Bool)
    (hscr : ∀ pd, ∃ pd2, env.scrape_metadata pd = .ok pd2)
    (hraw : ∀ t, target = some t → classify (some t) ≠ .venue .rawPDF) :
    ∃ b, (main env target v dd n p).outcome = .ret b := by
  cases hdir : (resolveDirStage env dd).dir with
  | none => exact ⟨false, by simp [main, hdir]⟩
  | some dir =>
    cases target with
    | none => exact ⟨false, by simp [main, hdir]⟩
    | some t =>
      have hmain : (main env (some t) v dd n p).outcome
          = (runTarget env t dir v n p).outcome := by
        simp [main, hdir]
      rw [hmain]
      cases hcls : classify (some t) with
      | emptyTarget => exact ⟨false, by simp [runTarget, hcls]⟩
      | unrecognizedFormat => exact ⟨false, by simp [runTarget, hcls]⟩
      | unknownTarget => exact ⟨false, by simp [runTarget, hcls]⟩
      | venue vn =>
        have hvn : vn ≠ .rawPDF := by
          intro hv
          subst hv
          exact (hraw t rfl) hcls
        rcases resolveStage_some env t vn hvn with ⟨pd, c, hres⟩
        rcases hscr pd with ⟨pd2, h2⟩
        rcases postScrape_ret env pd2 dir v n p with ⟨b, hb⟩
        exact ⟨b, by simp [runTarget, hcls, hres, h2, hb]⟩

/-- Witness for `no_raise_outside_scrape_and_rawpdf` in the benign
environment. -/
theorem no_raise_outside_scrape_and_rawpdf_witness :
    ∃ b, (main envDemo (some "1506.01497") false (some "/papers") 5
        false).outcome = .ret b :=
  no_raise_outside_scrape_and_rawpdf envDemo (some "1506.01497") false
    (some "/papers") 5 false (fun pd => ⟨pd, rfl⟩)
    (fun t ht => by injection ht with h; subst h; decide)

/-- C7: a metadata-scrape failure is the only stage failure the
orchestrator does not catch: it propagates as-is to the caller, while a
directory-resolution failure, a download failure, an index-append failure
and a note-creation failure are each caught and converted to a returned
`false`. -/
theorem scrape_failure_uniquely_propagates :
    (∀ (env : Env) (t : String) (dd : Option String) (dir : String)
      (v : Bool) (n : Nat) (p : Bool) (vn : Venue) (pd : PaperData)
      (c : Call) (e : String),
      (resolveDirStage env dd).dir = some dir →
      classify (some t) = .venue vn →
      resolveStage env t vn = some (pd, c) →
      env.scrape_metadata pd = .error e →
      (main env (some t) v dd n p).outcome = .raise e) ∧
    (∀ (env : Env) (t : Option String) (dd : Option String) (v : Bool)
      (n : Nat) (p : Bool), (resolveDirStage env dd).dir = none →
      (main env t v dd n p).outcome = .ret false) ∧
    (∀ (env : Env) (pd : PaperData) (dir : String) (v : Bool) (n : Nat)
      (p : Bool) (e : String), truthyStr pd.pdf_url = true →
      env.download_pdf pd dir n = .error e →
      (postScrape env pd dir v n p).outcome = .ret false) ∧
    (∀ (env : Env) (pd : PaperData) (dir : String) (p : Bool) (e : String),
      env.add_to_paper_list pd dir = .error e →
      (indexNoteStage env pd dir p).outcome = .ret false) ∧
    (∀ (env : Env) (pd : PaperData) (dir : String) (e : String),
      env.add_to_paper_list pd dir = .ok () →
      env.create_paper_note pd dir = .error e →
      (indexNoteStage env pd dir false).outcome = .ret false) := by
  refine ⟨?_, ?_, ?_, ?_, ?_⟩
  · intro env t dd dir v n p vn pd c e hdir hcls hres hscr
    simp [main, hdir, runTarget, hcls, hres, hscr]
  · intro env t dd v n p hdir
    cases t <;> simp [main, hdir]
  · intro env pd dir v n p e hurl hdl
    simp [postScrape, hurl, hdl]
  · intro env pd dir p e hidx
    simp [indexNoteStage, hidx]
  · intro env pd dir e hok hnote
    simp [indexNoteStage, hok, hnote]

/-- Witness for `scrape_failure_uniquely_propagates`: each conjunct at a
concrete run. -/
theorem scrape_failure_uniquely_propagates_witness :
    (main envScrapeFail (some "1506.01497") false (some "/papers") 5
        false).outcome = .raise "ConnectionError" ∧
    (main envNoDir (some "1506.01497") false (some "/papers") 5
        false).outcome = .ret false ∧
    (postScrape envDownloadFail pdDemo "/papers" false 5 false).outcome
      = .ret false ∧
    (indexNoteStage envIndexFail pdDemo "/papers" false).outcome
      = .ret false ∧
    (indexNoteStage envNoteFail pdDemo "/papers" false).outcome
      = .ret false :=
  ⟨scrape_failure_uniquely_propagates.1 envScrapeFail "1506.01497"
      (some "/papers") "/papers" false 5 false .arxiv pdDemo
      (.processArxiv "1506.01497") "ConnectionError" (by decide)
      (by decide) rfl rfl,
    scrape_failure_uniquely_propagates.2.1 envNoDir (some "1506.01497")
      (some "/papers") false 5 false (by decide),
    scrape_failure_uniquely_propagates.2.2.1 envDownloadFail pdDemo
      "/papers" false 5 false "HTTPError" (by decide) rfl,
    scrape_failure_uniquely_propagates.2.2.2.1 envIndexFail pdDemo
      "/papers" false "OSError" rfl,
    scrape_failure_uniquely_propagates.2.2.2.2 envNoteFail pdDemo
      "/papers" "OSError" rfl rfl⟩

theorem postScrape_verbose_irrel (env : Env) (pd : PaperData) (dir : String)
    (n : Nat) (p : Bool) :
    (postScrape env pd dir true n p).outcome
      = (postScrape env pd dir false n p).outcome ∧
    (postScrape env pd dir true n p).calls
      = (postScrape env pd dir false n p).calls := by
  unfold postScrape
  cases h : truthyStr pd.pdf_url with
  | false => simp
  | true => cases hd : env.download_pdf pd dir n <;> simp

theorem runTarget_verbose_irrel (env : Env) (t : String) (dir : String)
    (n : Nat) (p : Bool) :
    (runTarget env t dir true n p).outcome
      = (runTarget env t dir false n p).outcome ∧
    (runTarget env t dir true n p).calls
      = (runTarget env t dir false n p).calls := by
  unfold runTarget
  cases classify (some t) with
  | emptyTarget => simp
  | unrecognizedFormat => simp
  | unknownTarget => simp
  | venue vn =>
    cases hres : resolveStage env t vn with
    | none => simp [hres]
    | some pc =>
      obtain ⟨pd, c⟩ := pc
      cases hscr : env.scrape_metadata pd with
      | error e => simp [hres, hscr]
      | ok pd2 =>
        simp [hres, hscr, (postScrape_verbose_irrel env pd2 dir n p).1,
          (postScrape_verbose_irrel env pd2 dir n p).2]

/-- C10: two runs of `main` that differ only in the `verbose` flag have the
same outcome and perform exactly the same collaborator invocations (with
the same `PaperData` and directory arguments); `verbose` influences only
the emitted log entries. -/
theorem verbose_only_affects_logs (env : Env) (target : Option String)
    (dd : Option String) (n : Nat) (p : Bool) :
    (main env target true dd n p).outcome
      = (main env target false dd n p).outcome ∧
    (main env target true dd n p).calls
      = (main env target false dd n p).calls := by
  cases hdir : (resolveDirStage env dd).dir with
  | none => simp [main, hdir]
  | some dir =>
    cases target with
    | none => simp [main, hdir]
    | some t =>
      simp [main, hdir, (runTarget_verbose_irrel env t dir n p).1,
        (runTarget_verbose_irrel env t dir n p).2]

end ArxivDl
